import Mathlib

/-!
# Verification of the DFRobot ESP pH driver calibration engine

Shallow embedding of `src/dfrobot-esp-ph.cpp` (class `DFRobotESPpH`):
the two-point linear pH model (`readPH`), the command interpreter
(`cmdParse`), the calibration state machine (`phCalibration`), the
startup loader (`begin`) and the manual calibration path
(`manualCalibration`).

Floating-point values are embedded as exact rationals (`ℚ`); the
`Preferences` key-value store keeps the two keys the driver uses,
`"voltage7"` and `"voltage4"`, as `Option ℚ` (`none` = key absent).
The two `static` booleans local to `phCalibration`
(`enterCalibrationFlag`, `phCalibrationFinish`) are lifted into the
driver state, as is the `preferences` object.
-/

/-- The persistent key-value store (`Preferences` with namespace
`"pHVals"`).  Only the two keys the driver ever touches are kept:
`voltage7` (neutral point) and `voltage4` (acid point); `none` means the
key has never been written. -/
structure Preferences where
  voltage7 : Option ℚ
  voltage4 : Option ℚ
deriving DecidableEq, Repr

/-- Embeds `preferences.getFloat(key, default)`: the stored value, or the
default when the key is absent (any key other than the two used ones is
always absent). -/
def Preferences.getFloat (p : Preferences) (key : String) (d : ℚ) : ℚ :=
  if key = "voltage7" then p.voltage7.getD d
  else if key = "voltage4" then p.voltage4.getD d
  else d

/-- Embeds `preferences.putFloat(key, v)`: overwrite the stored value. -/
def Preferences.putFloat (p : Preferences) (key : String) (v : ℚ) : Preferences :=
  if key = "voltage7" then { p with voltage7 := some v }
  else if key = "voltage4" then { p with voltage4 := some v }
  else p

/-- Modelled from the spec: the header declaring the four reference-band
constants `PH_8_VOLTAGE`, `PH_6_VOLTAGE`, `PH_5_VOLTAGE`, `PH_3_VOLTAGE`
is not under `src/` (only `dfrobot-esp-ph.cpp` is).  The spec fixes only
that they are fixed voltage constants delimiting disjoint reference
bands — neutral acceptance band `(PH_8_VOLTAGE, PH_6_VOLTAGE)`, acid
band `(PH_5_VOLTAGE, PH_3_VOLTAGE)`, neutral *commit* band widened to
`(PH_8_VOLTAGE, PH_5_VOLTAGE)` — so they are kept abstract here and all
theorems quantify over them. -/
structure BandConsts where
  PH_8_VOLTAGE : ℚ
  PH_6_VOLTAGE : ℚ
  PH_5_VOLTAGE : ℚ
  PH_3_VOLTAGE : ℚ
deriving DecidableEq, Repr

/-- The mutable state of a `DFRobotESPpH` driver instance: its member
fields, the two `static` session flags of `phCalibration`, and the
attached `Preferences` store. -/
structure DFRobotESPpH where
  temperature : ℚ
  phValue : ℚ
  acidVoltage : ℚ
  neutralVoltage : ℚ
  voltage : ℚ
  enterCalibrationFlag : Bool
  phCalibrationFinish : Bool
  preferences : Preferences
deriving DecidableEq, Repr

namespace DFRobotESPpH

/-- The constructor `DFRobotESPpH::DFRobotESPpH()` together with the
zero-initialisation of the two `static` session flags: default
calibration constants (acid 1844.17 mV, neutral 1348.68 mV), last pH
7.0, temperature 25 °C, idle session. -/
def construct (prefs : Preferences) : DFRobotESPpH :=
  { temperature := 25
    phValue := 7
    acidVoltage := 1844.17
    neutralVoltage := 1348.68
    voltage := 1348.68
    enterCalibrationFlag := false
    phCalibrationFinish := false
    preferences := prefs }

/-- Embeds `DFRobotESPpH::readPH(voltage, temperature)`: the two-point linear
model.  `temperature` is accepted but unused, exactly as in the source.
Returns the updated driver state (the `_phValue` member is assigned)
together with the returned pH. -/
def readPH (s : DFRobotESPpH) (voltage : ℚ) (temperature : ℚ) : DFRobotESPpH × ℚ :=
  let slope := (7 - 4) / ((s.neutralVoltage - 1500) / 3 - (s.acidVoltage - 1500) / 3)
  let intercept := 7 - slope * ((s.neutralVoltage - 1500) / 3)
  let phValue := slope * ((voltage - 1500) / 3) + intercept
  ({ s with phValue := phValue }, phValue)

/-- Embeds `DFRobotESPpH::begin()`: load each constant from the store with
default `0`; a loaded value equal to `0` is replaced by the typical
default and written back. -/
def begin (s : DFRobotESPpH) : DFRobotESPpH :=
  let n : ℚ := s.preferences.getFloat "voltage7" 0
  let s₂ : DFRobotESPpH :=
    if n = 0 then
      { s with neutralVoltage := 1348.68,
               preferences := s.preferences.putFloat "voltage7" 1348.68 }
    else { s with neutralVoltage := n }
  let a : ℚ := s₂.preferences.getFloat "voltage4" 0
  if a = 0 then
    { s₂ with acidVoltage := 1844.17,
              preferences := s₂.preferences.putFloat "voltage4" 1844.17 }
  else { s₂ with acidVoltage := a }

/-- Embeds `strstr(cmd, pat) != NULL`: does the pattern occur contiguously in
the command?  Embedded via `List.IsInfix`. -/
def strstrFound (cmd pat : List Char) : Bool := decide (pat <:+: cmd)

/-- Embeds `DFRobotESPpH::cmdParse(cmd)`: substring search (`strstr`) for
`"ENTERPH"`, then `"EXITPH"`, then `"CALPH"`, returning the mode bytes
1, 3, 2 respectively and 0 when none matches.  The command is a
character list. -/
def cmdParse (cmd : List Char) : ℕ :=
  if strstrFound cmd "ENTERPH".toList then 1
  else if strstrFound cmd "EXITPH".toList then 3
  else if strstrFound cmd "CALPH".toList then 2
  else 0

/-- The externally observable outcome of one `phCalibration` step,
abstracting the `Serial` prints of the source:
* `silent` — nothing printed;
* `commandError` — `>>>Command Error<<<`;
* `enterPrompt` — `>>>Enter PH Calibration Mode<<<` and the probe prompt;
* `accepted7` / `accepted4` — `>>>Buffer Solution:7.0` / `:4.0`;
* `bufferError` — `>>>Buffer Solution Error Try Again<<<` (the spec's
  `OutOfRangeSample`);
* `calibrationSuccessful saved` — `>>>Calibration Successful`, with
  `saved` recording which key (if any) was written to the store;
* `calibrationFailed` — `>>>Calibration Failed`. -/
inductive Outcome where
  | silent
  | commandError
  | enterPrompt
  | accepted7
  | accepted4
  | bufferError
  | calibrationSuccessful (saved : Option ℕ)
  | calibrationFailed
deriving DecidableEq, Repr

/-- Embeds `DFRobotESPpH::phCalibration(mode)`: the calibration state machine.
`bc` supplies the reference-band constants from the missing header.
Returns the updated state and the observable outcome.  The `saved`
payload of `calibrationSuccessful` is `some 7` when `"voltage7"` was
written, `some 4` when `"voltage4"` was, and `none` when the success
message was printed without any store write. -/
def phCalibration (bc : BandConsts) (s : DFRobotESPpH) (mode : ℕ) :
    DFRobotESPpH × Outcome :=
  match mode with
  | 0 => if s.enterCalibrationFlag then (s, .commandError) else (s, .silent)
  | 1 =>
      ({ s with enterCalibrationFlag := true, phCalibrationFinish := false },
        .enterPrompt)
  | 2 =>
      if s.enterCalibrationFlag then
        if s.voltage > bc.PH_8_VOLTAGE ∧ s.voltage < bc.PH_6_VOLTAGE then
          ({ s with neutralVoltage := s.voltage, phCalibrationFinish := true },
            .accepted7)
        else if s.voltage > bc.PH_5_VOLTAGE ∧ s.voltage < bc.PH_3_VOLTAGE then
          ({ s with acidVoltage := s.voltage, phCalibrationFinish := true },
            .accepted4)
        else
          ({ s with phCalibrationFinish := false }, .bufferError)
      else (s, .silent)
  | 3 =>
      if s.enterCalibrationFlag then
        if s.phCalibrationFinish then
          if s.voltage > bc.PH_8_VOLTAGE ∧ s.voltage < bc.PH_5_VOLTAGE then
            ({ s with
                preferences := s.preferences.putFloat "voltage7" s.neutralVoltage,
                phCalibrationFinish := false, enterCalibrationFlag := false },
              .calibrationSuccessful (some 7))
          else if s.voltage > bc.PH_5_VOLTAGE ∧ s.voltage < bc.PH_3_VOLTAGE then
            ({ s with
                preferences := s.preferences.putFloat "voltage4" s.acidVoltage,
                phCalibrationFinish := false, enterCalibrationFlag := false },
              .calibrationSuccessful (some 4))
          else
            ({ s with phCalibrationFinish := false, enterCalibrationFlag := false },
              .calibrationSuccessful none)
        else
          ({ s with phCalibrationFinish := false, enterCalibrationFlag := false },
            .calibrationFailed)
      else (s, .silent)
  | _ => (s, .silent)

/-- Embeds `DFRobotESPpH::manualCalibration(voltage7, voltage4)`: opens the
store and writes — exactly as the source does — the *currently held*
member constants `_neutralVoltage` and `_acidVoltage`, not the two
arguments, which are unused. -/
def manualCalibration (s : DFRobotESPpH) (voltage7 : ℚ) (voltage4 : ℚ) :
    DFRobotESPpH :=
  { s with
      preferences :=
        (s.preferences.putFloat "voltage7" s.neutralVoltage).putFloat
          "voltage4" s.acidVoltage }

/-- One externally driven event: either the caller's `getPH` updating
the live `_voltage` member from the ADC, or a parsed command mode fed to
`phCalibration`. -/
inductive Event where
  | setVoltage (v : ℚ)
  | cmd (mode : ℕ)
deriving DecidableEq, Repr

/-- Apply one event to the driver state (outcome discarded). -/
def applyEvent (bc : BandConsts) (s : DFRobotESPpH) : Event → DFRobotESPpH
  | .setVoltage v => { s with voltage := v }
  | .cmd m => (s.phCalibration bc m).1

/-- Run a sequence of events. -/
def run (bc : BandConsts) (s : DFRobotESPpH) : List Event → DFRobotESPpH
  | [] => s
  | e :: es => run bc (s.applyEvent bc e) es

/-- States reachable from the constructor satisfy this: the sample
flag is never set outside an active session. -/
def WellFormed (s : DFRobotESPpH) : Prop :=
  s.enterCalibrationFlag = false → s.phCalibrationFinish = false

/-- Does the event invoke the `EXITPH` branch (the only branch that can
write the store)? -/
def Event.isExit : Event → Bool
  | .cmd 3 => true
  | _ => false

end DFRobotESPpH

/-- A concrete instantiation of the four reference-band constants used
for witnesses and counterexamples, satisfying the band layout the spec
describes (disjoint acceptance bands, widened neutral commit band). -/
def bcEx : BandConsts := ⟨1122, 1478, 1654, 2010⟩

/-- A concrete store for witnesses and counterexamples. -/
def prefsEx : Preferences := ⟨some 1340, some 1800⟩

/-- A concrete idle driver state for witnesses and counterexamples. -/
def sEx : DFRobotESPpH :=
  { temperature := 25, phValue := 7, acidVoltage := 1800, neutralVoltage := 1340,
    voltage := 1340, enterCalibrationFlag := false, phCalibrationFinish := false,
    preferences := prefsEx }

/-- A concrete state inside a session, live voltage in the neutral band. -/
def sActive : DFRobotESPpH := { sEx with enterCalibrationFlag := true, voltage := 1300 }

/-- A concrete state inside a session with an accepted sample whose last
live voltage (500 mV) lies outside both commit bands of `bcEx`. -/
def sQuirk : DFRobotESPpH :=
  { sEx with enterCalibrationFlag := true, phCalibrationFinish := true, voltage := 500 }

/-- A concrete state with degenerate calibration constants
(`neutralVoltage = acidVoltage = 1500`). -/
def sDeg : DFRobotESPpH := { sEx with neutralVoltage := 1500, acidVoltage := 1500 }

/-- A concrete state inside a session with an accepted sample whose last
live voltage (1300 mV) lies inside the neutral commit band of `bcEx`. -/
def sCommit : DFRobotESPpH :=
  { sEx with enterCalibrationFlag := true, phCalibrationFinish := true, voltage := 1300 }

/-- A concrete state whose store holds the exact value `0` under both
keys. -/
def sZero : DFRobotESPpH := { sEx with preferences := ⟨some 0, some 0⟩ }

/-- The event sequence of the commit-band quirk: enter calibration,
sample 1300 mV (accepted as neutral), voltage drifts to 500 mV
(outside both commit bands); an `EXITPH` follows. -/
def quirkEvents : List DFRobotESPpH.Event :=
  [.cmd 1, .setVoltage 1300, .cmd 2, .setVoltage 500]

namespace DFRobotESPpH

/-- Unfolding lemma: the pH value returned by `readPH`. -/
theorem readPH_val (s : DFRobotESPpH) (v t : ℚ) :
    (s.readPH v t).2 =
      (7 - 4) / ((s.neutralVoltage - 1500) / 3 - (s.acidVoltage - 1500) / 3)
          * ((v - 1500) / 3)
        + (7 - (7 - 4) / ((s.neutralVoltage - 1500) / 3 - (s.acidVoltage - 1500) / 3)
            * ((s.neutralVoltage - 1500) / 3)) := rfl

/-- **C2** (confirmed): for every pair of calibration constants with
`acidVoltage ≠ neutralVoltage`, the pH model evaluated at the neutral
voltage returns 7.0 and at the acid voltage returns 4.0 (exactly, in the
rational embedding, hence within the claimed tolerance `1e-6`), for any
temperature argument. -/
theorem readPH_two_point (s : DFRobotESPpH) (t : ℚ)
    (h : s.acidVoltage ≠ s.neutralVoltage) :
    |(s.readPH s.neutralVoltage t).2 - 7| ≤ 1 / 1000000 ∧
    |(s.readPH s.acidVoltage t).2 - 4| ≤ 1 / 1000000 := by
  have hd : (s.neutralVoltage - 1500) / 3 - (s.acidVoltage - 1500) / 3
      = (s.neutralVoltage - s.acidVoltage) / 3 := by ring
  have hne : (s.neutralVoltage - 1500) / 3 - (s.acidVoltage - 1500) / 3 ≠ 0 := by
    rw [hd]
    exact div_ne_zero (sub_ne_zero.mpr fun e => h e.symm) (by norm_num)
  constructor
  · have h7 : (s.readPH s.neutralVoltage t).2 = 7 := by rw [readPH_val]; ring
    rw [h7]; norm_num
  · have hsub : s.neutralVoltage - s.acidVoltage ≠ 0 :=
      sub_ne_zero.mpr fun e => h e.symm
    have h4 : (s.readPH s.acidVoltage t).2 = 4 := by
      rw [readPH_val, hd]
      field_simp
      ring
    rw [h4]; norm_num

/-- Witness for **C2** at the concrete state `sEx`
(acid 1800 mV, neutral 1340 mV), temperature 25 °C. -/
theorem readPH_two_point_witness :
    |(sEx.readPH sEx.neutralVoltage 25).2 - 7| ≤ 1 / 1000000 ∧
    |(sEx.readPH sEx.acidVoltage 25).2 - 4| ≤ 1 / 1000000 :=
  readPH_two_point sEx 25 (by decide)

/-- **C3** (code bug): `manualCalibration(1500, 2000)` on a state holding
constants neutral 1340 mV / acid 1800 mV stores the held constants, not
the arguments: the subsequent store `get` returns 1340 and 1800, not the
passed-in 1500 and 2000. -/
theorem manualCalibration_stores_current :
    (sEx.manualCalibration 1500 2000).preferences.getFloat "voltage7" 0 = 1340 ∧
    (sEx.manualCalibration 1500 2000).preferences.getFloat "voltage4" 0 = 1800 ∧
    ¬ (sEx.manualCalibration 1500 2000).preferences.getFloat "voltage7" 0 = 1500 ∧
    ¬ (sEx.manualCalibration 1500 2000).preferences.getFloat "voltage4" 0 = 2000 := by
  decide

/-- **C4** (code bug): with degenerate constants
(`neutralVoltage = acidVoltage`) the slope denominator of `readPH` is
zero, yet the code computes the formula unguarded.  In this exact
rational embedding (where `x / 0 = 0`) the returned pH collapses to the
constant 7 independently of the measured voltage — junk; under the
source's IEEE-754 floats the same division yields a non-finite value
that is returned silently.  No degenerate check or `DegenerateCalibration`
report exists anywhere in the source. -/
theorem readPH_degenerate (s : DFRobotESPpH) (v t : ℚ)
    (h : s.neutralVoltage = s.acidVoltage) :
    (s.readPH v t).2 = 7 := by
  rw [readPH_val, h]
  simp

/-- Witness for **C4** at the degenerate state `sDeg`
(both constants 1500 mV), measured voltage 1000 mV. -/
theorem readPH_degenerate_witness :
    sDeg.neutralVoltage = sDeg.acidVoltage ∧ (sDeg.readPH 1000 25).2 = 7 :=
  ⟨rfl, readPH_degenerate sDeg 1000 25 rfl⟩

/-- **C7** (confirmed): the command parser is total — every token maps to
exactly one of the four mode bytes 0 (None), 1 (EnterCalibration),
2 (TakeReading), 3 (ExitAndSave) — and when several of the substrings
`ENTERPH`, `EXITPH`, `CALPH` occur, the fixed check order `ENTERPH`,
then `EXITPH`, then `CALPH` decides. -/
theorem cmdParse_total_ordered (cmd : List Char) :
    (cmdParse cmd = 0 ∨ cmdParse cmd = 1 ∨ cmdParse cmd = 2 ∨ cmdParse cmd = 3) ∧
    ("ENTERPH".toList <:+: cmd → cmdParse cmd = 1) ∧
    (¬ ("ENTERPH".toList <:+: cmd) → "EXITPH".toList <:+: cmd →
      cmdParse cmd = 3) ∧
    (¬ ("ENTERPH".toList <:+: cmd) → ¬ ("EXITPH".toList <:+: cmd) →
      "CALPH".toList <:+: cmd → cmdParse cmd = 2) ∧
    (¬ ("ENTERPH".toList <:+: cmd) → ¬ ("EXITPH".toList <:+: cmd) →
      ¬ ("CALPH".toList <:+: cmd) → cmdParse cmd = 0) := by
  simp only [cmdParse, strstrFound, decide_eq_true_eq]
  split_ifs with h1 h2 h3 <;> simp_all

/-- Witness for **C7**: a token containing both `EXITPH` and `CALPH`
parses as mode 3 (`EXITPH` is checked before `CALPH`). -/
theorem cmdParse_total_ordered_witness :
    cmdParse "EXITPHCALPH".toList = 3 :=
  (cmdParse_total_ordered "EXITPHCALPH".toList).2.2.1 (by decide) (by decide)

/-- **C5** (corrected & amended): when no calibration session is active
(`enterCalibrationFlag = false`), the `None`, `TakeReading` and
`ExitAndSave` modes are silent no-ops — state, calibration constants and
store unchanged, and no `CommandError` is reported.  `CommandError` is
instead reported when a `None` mode arrives while a session *is*
active. -/
theorem idle_noop (bc : BandConsts) (s : DFRobotESPpH) :
    (s.enterCalibrationFlag = false →
      s.phCalibration bc 0 = (s, .silent) ∧
      s.phCalibration bc 2 = (s, .silent) ∧
      s.phCalibration bc 3 = (s, .silent)) ∧
    (s.enterCalibrationFlag = true →
      s.phCalibration bc 0 = (s, .commandError)) := by
  constructor <;> intro h <;> simp [phCalibration, h]

/-- Counterexample to **C5** as stated: in the idle state `sEx`, a
`TakeReading` (mode 2) and an `ExitAndSave` (mode 3) are silent — the
outcome is not `CommandError` — and the state is unchanged. -/
theorem idle_noop_cex :
    sEx.enterCalibrationFlag = false ∧
    sEx.phCalibration bcEx 2 = (sEx, .silent) ∧
    (sEx.phCalibration bcEx 2).2 ≠ .commandError ∧
    sEx.phCalibration bcEx 3 = (sEx, .silent) ∧
    (sEx.phCalibration bcEx 3).2 ≠ .commandError := by decide

/-- Witness for **C5** (amended) at the concrete states `sEx` (idle) and
`sActive` (in-session). -/
theorem idle_noop_witness :
    sEx.phCalibration bcEx 2 = (sEx, .silent) ∧
    sActive.phCalibration bcEx 0 = (sActive, .commandError) :=
  ⟨((idle_noop bcEx sEx).1 rfl).2.1, (idle_noop bcEx sActive).2 rfl⟩

/-- **C6** (confirmed): during an active session, `TakeReading` (mode 2)
classifies the live voltage: neutral acceptance band sets the neutral
candidate and the accepted flag; otherwise the acid band sets the acid
candidate and the accepted flag; otherwise the out-of-range outcome is
reported, the accepted flag is cleared and neither candidate changes.
The session stays active (last conjunct), so a later `TakeReading`
re-evaluates the same rule on the current state and the last accepted
sample wins. -/
theorem takeReading_classifies (bc : BandConsts) (s : DFRobotESPpH)
    (hA : s.enterCalibrationFlag = true) :
    (s.voltage > bc.PH_8_VOLTAGE ∧ s.voltage < bc.PH_6_VOLTAGE →
      s.phCalibration bc 2 =
        ({ s with neutralVoltage := s.voltage, phCalibrationFinish := true },
          .accepted7)) ∧
    (¬ (s.voltage > bc.PH_8_VOLTAGE ∧ s.voltage < bc.PH_6_VOLTAGE) →
      s.voltage > bc.PH_5_VOLTAGE ∧ s.voltage < bc.PH_3_VOLTAGE →
      s.phCalibration bc 2 =
        ({ s with acidVoltage := s.voltage, phCalibrationFinish := true },
          .accepted4)) ∧
    (¬ (s.voltage > bc.PH_8_VOLTAGE ∧ s.voltage < bc.PH_6_VOLTAGE) →
      ¬ (s.voltage > bc.PH_5_VOLTAGE ∧ s.voltage < bc.PH_3_VOLTAGE) →
      s.phCalibration bc 2 =
        ({ s with phCalibrationFinish := false }, .bufferError)) ∧
    (s.phCalibration bc 2).1.enterCalibrationFlag = true := by
  refine ⟨fun hN => ?_, fun hN h4 => ?_, fun hN h4 => ?_, ?_⟩
  · simp [phCalibration, hA, hN]
  · simp [phCalibration, hA, hN, h4]
  · simp [phCalibration, hA, hN, h4]
  · unfold phCalibration
    split_ifs <;> simp [hA]

/-- Witness for **C6** at the concrete in-session state `sActive`
(live voltage 1300 mV, inside the neutral band of `bcEx`). -/
theorem takeReading_classifies_witness :
    sActive.phCalibration bcEx 2 =
      ({ sActive with neutralVoltage := sActive.voltage, phCalibrationFinish := true },
        .accepted7) :=
  (takeReading_classifies bcEx sActive rfl).1 (by decide)

/-- **C10** (confirmed): a single `TakeReading` (mode 2) never writes the
store, modifies at most one of the two calibration constants, and more
precisely: a neutral-band acceptance leaves the acid constant unchanged,
anything other than a neutral-band acceptance leaves the neutral
constant unchanged, and an out-of-band sample leaves both unchanged. -/
theorem takeReading_frame (bc : BandConsts) (s : DFRobotESPpH) :
    (s.phCalibration bc 2).1.preferences = s.preferences ∧
    ((s.phCalibration bc 2).1.neutralVoltage = s.neutralVoltage ∨
      (s.phCalibration bc 2).1.acidVoltage = s.acidVoltage) ∧
    (s.voltage > bc.PH_8_VOLTAGE ∧ s.voltage < bc.PH_6_VOLTAGE →
      (s.phCalibration bc 2).1.acidVoltage = s.acidVoltage) ∧
    (¬ (s.voltage > bc.PH_8_VOLTAGE ∧ s.voltage < bc.PH_6_VOLTAGE) →
      (s.phCalibration bc 2).1.neutralVoltage = s.neutralVoltage) ∧
    (¬ (s.voltage > bc.PH_8_VOLTAGE ∧ s.voltage < bc.PH_6_VOLTAGE) →
      ¬ (s.voltage > bc.PH_5_VOLTAGE ∧ s.voltage < bc.PH_3_VOLTAGE) →
      (s.phCalibration bc 2).1.neutralVoltage = s.neutralVoltage ∧
      (s.phCalibration bc 2).1.acidVoltage = s.acidVoltage) := by
  unfold phCalibration
  split_ifs <;> simp_all

/-- Witness for **C10** at the concrete in-session state `sActive`. -/
theorem takeReading_frame_witness :
    (sActive.phCalibration bcEx 2).1.acidVoltage = sActive.acidVoltage :=
  (takeReading_frame bcEx sActive).2.2.1 (by decide)

/-- **C1** (corrected & amended): on `ExitAndSave` (mode 3) during an
active session: with an accepted sample and the last live voltage in the
neutral commit band (note its widened upper bound `PH_5_VOLTAGE`), the
neutral candidate is committed under `"voltage7"` and success with a
saved point is reported; else with the voltage in the acid commit band
the acid candidate is committed under `"voltage4"`; with an accepted
sample but the voltage outside both commit bands, success is *still*
reported (the quirk) but nothing is written; with no accepted sample the
outcome is `calibrationFailed` and nothing is written.  The session
flags reset unconditionally. -/
theorem exitAndSave_commit (bc : BandConsts) (s : DFRobotESPpH)
    (hA : s.enterCalibrationFlag = true) :
    (s.phCalibrationFinish = true →
      (s.voltage > bc.PH_8_VOLTAGE ∧ s.voltage < bc.PH_5_VOLTAGE →
        s.phCalibration bc 3 =
          ({ s with
              preferences := s.preferences.putFloat "voltage7" s.neutralVoltage,
              phCalibrationFinish := false, enterCalibrationFlag := false },
            .calibrationSuccessful (some 7))) ∧
      (¬ (s.voltage > bc.PH_8_VOLTAGE ∧ s.voltage < bc.PH_5_VOLTAGE) →
        s.voltage > bc.PH_5_VOLTAGE ∧ s.voltage < bc.PH_3_VOLTAGE →
        s.phCalibration bc 3 =
          ({ s with
              preferences := s.preferences.putFloat "voltage4" s.acidVoltage,
              phCalibrationFinish := false, enterCalibrationFlag := false },
            .calibrationSuccessful (some 4))) ∧
      (¬ (s.voltage > bc.PH_8_VOLTAGE ∧ s.voltage < bc.PH_5_VOLTAGE) →
        ¬ (s.voltage > bc.PH_5_VOLTAGE ∧ s.voltage < bc.PH_3_VOLTAGE) →
        s.phCalibration bc 3 =
          ({ s with phCalibrationFinish := false, enterCalibrationFlag := false },
            .calibrationSuccessful none))) ∧
    (s.phCalibrationFinish = false →
      s.phCalibration bc 3 =
        ({ s with phCalibrationFinish := false, enterCalibrationFlag := false },
          .calibrationFailed)) ∧
    (s.phCalibration bc 3).1.enterCalibrationFlag = false ∧
    (s.phCalibration bc 3).1.phCalibrationFinish = false := by
  refine ⟨fun hF => ⟨fun hN => ?_, fun hN h4 => ?_, fun hN h4 => ?_⟩,
    fun hF => ?_, ?_, ?_⟩
  · simp [phCalibration, hA, hF, hN]
  · simp [phCalibration, hA, hF, hN, h4]
  · simp [phCalibration, hA, hF, hN, h4]
  · simp [phCalibration, hA, hF]
  · unfold phCalibration
    split_ifs <;> simp [hA]
  · unfold phCalibration
    split_ifs <;> simp [hA]

/-- Counterexample to **C1** as stated: in the state `sQuirk` a sample
was accepted (`phCalibrationFinish = true`) but the last live voltage
(500 mV) lies outside both commit bands of `bcEx`; the claim demands the
outcome `CalibrationFailed`, yet the code reports success (with no store
write). -/
theorem exitAndSave_commit_cex :
    sQuirk.enterCalibrationFlag = true ∧ sQuirk.phCalibrationFinish = true ∧
    ¬ (sQuirk.voltage > bcEx.PH_8_VOLTAGE ∧ sQuirk.voltage < bcEx.PH_5_VOLTAGE) ∧
    ¬ (sQuirk.voltage > bcEx.PH_5_VOLTAGE ∧ sQuirk.voltage < bcEx.PH_3_VOLTAGE) ∧
    (sQuirk.phCalibration bcEx 3).2 = .calibrationSuccessful none ∧
    (sQuirk.phCalibration bcEx 3).2 ≠ .calibrationFailed ∧
    (sQuirk.phCalibration bcEx 3).1.preferences = sQuirk.preferences := by decide

/-- Witness for **C1** (amended) at the concrete state `sCommit`
(accepted sample, last voltage 1300 mV inside the neutral commit band of
`bcEx`). -/
theorem exitAndSave_commit_witness :
    sCommit.phCalibration bcEx 3 =
      ({ sCommit with
          preferences := sCommit.preferences.putFloat "voltage7" sCommit.neutralVoltage,
          phCalibrationFinish := false, enterCalibrationFlag := false },
        .calibrationSuccessful (some 7)) :=
  ((exitAndSave_commit bcEx sCommit rfl).1 rfl).1 (by decide)

/-- **C9** (confirmed): `begin()` uses the exact value `0` as an absence
sentinel.  If the store lookup (with default `0`) returns `0` for
`"voltage7"` (resp. `"voltage4"`), the in-memory constant is set to the
default 1348.68 (resp. 1844.17) and that default is written back; and a
store legitimately holding the exact value `0` is indistinguishable from
an empty store — `begin` produces identical results on both. -/
theorem begin_zero_sentinel (s : DFRobotESPpH) :
    (s.preferences.getFloat "voltage7" 0 = 0 →
      s.begin.neutralVoltage = 1348.68 ∧
      s.begin.preferences.voltage7 = some 1348.68) ∧
    (s.preferences.getFloat "voltage4" 0 = 0 →
      s.begin.acidVoltage = 1844.17 ∧
      s.begin.preferences.voltage4 = some 1844.17) ∧
    DFRobotESPpH.begin { s with preferences := { s.preferences with voltage7 := some 0 } }
      = DFRobotESPpH.begin { s with preferences := { s.preferences with voltage7 := none } } ∧
    DFRobotESPpH.begin { s with preferences := { s.preferences with voltage4 := some 0 } }
      = DFRobotESPpH.begin { s with preferences := { s.preferences with voltage4 := none } } := by
  refine ⟨fun h7 => ?_, fun h4 => ?_, ?_, ?_⟩ <;>
    simp_all [DFRobotESPpH.begin, Preferences.getFloat, Preferences.putFloat] <;>
    split_ifs <;> simp_all

/-- Witness for **C9** at the concrete state `sZero`, whose store holds
the exact value `0` under both keys. -/
theorem begin_zero_sentinel_witness :
    sZero.begin.neutralVoltage = 1348.68 ∧
    sZero.begin.preferences.voltage7 = some 1348.68 :=
  (begin_zero_sentinel sZero).1 rfl

/-- Well-formedness is preserved by every event. -/
theorem applyEvent_wellFormed (bc : BandConsts) (s : DFRobotESPpH) (e : Event)
    (h : s.WellFormed) : (s.applyEvent bc e).WellFormed := by
  cases e with
  | setVoltage v => simpa [applyEvent, WellFormed] using h
  | cmd m =>
    rcases m with _ | _ | _ | _ | m <;>
      unfold applyEvent phCalibration <;>
      · try split_ifs <;> simp_all [WellFormed]

/-- Well-formedness is preserved by every event sequence. -/
theorem run_wellFormed (bc : BandConsts) (es : List Event) :
    ∀ s : DFRobotESPpH, s.WellFormed → (DFRobotESPpH.run bc s es).WellFormed := by
  induction es with
  | nil => exact fun s h => h
  | cons e es ih => exact fun s h => ih _ (applyEvent_wellFormed bc s e h)

/-- No event other than an `EXITPH` command (mode 3) touches the store. -/
theorem applyEvent_preferences (bc : BandConsts) (s : DFRobotESPpH) (e : Event)
    (h : e.isExit = false) : (s.applyEvent bc e).preferences = s.preferences := by
  cases e with
  | setVoltage v => rfl
  | cmd m =>
    rcases m with _ | _ | _ | _ | m
    · unfold applyEvent phCalibration; split_ifs <;> rfl
    · rfl
    · unfold applyEvent phCalibration; split_ifs <;> rfl
    · simp [Event.isExit] at h
    · rfl

/-- The store is unchanged across any event sequence free of `EXITPH`
commands. -/
theorem run_preferences (bc : BandConsts) (es : List Event) :
    ∀ s : DFRobotESPpH, (∀ e ∈ es, e.isExit = false) →
      (DFRobotESPpH.run bc s es).preferences = s.preferences := by
  induction es with
  | nil => exact fun s _ => rfl
  | cons e es ih =>
    intro s h
    have h1 : e.isExit = false := h e (List.mem_cons_self e es)
    have h2 : ∀ x ∈ es, x.isExit = false := fun x hx => h x (List.mem_cons_of_mem e hx)
    calc (DFRobotESPpH.run bc (s.applyEvent bc e) es).preferences
        = (s.applyEvent bc e).preferences := ih _ h2
      _ = s.preferences := applyEvent_preferences bc s e h1

/-- **C8** (corrected & amended): for every event sequence ending in an
`ExitAndSave`, starting from a well-formed state: the machine is back in
`Idle` (both session flags false); the store after the exit equals the
store before the exit, or that store with exactly one key overwritten by
the corresponding current candidate constant — never any other
partially-updated pair; when the exit reported `calibrationFailed` the
store is unchanged (a reported success, however, does not guarantee a
write — the C1 quirk); and the store before the exit equals the initial
store whenever the earlier events contain no `EXITPH` command, so it is
the pre-session store. -/
theorem session_exit_invariant (bc : BandConsts) (s₀ : DFRobotESPpH)
    (events : List Event) (h₀ : s₀.WellFormed) :
    ((DFRobotESPpH.run bc s₀ events).phCalibration bc 3).1.enterCalibrationFlag = false ∧
    ((DFRobotESPpH.run bc s₀ events).phCalibration bc 3).1.phCalibrationFinish = false ∧
    (((DFRobotESPpH.run bc s₀ events).phCalibration bc 3).1.preferences
        = (DFRobotESPpH.run bc s₀ events).preferences ∨
      ((DFRobotESPpH.run bc s₀ events).phCalibration bc 3).1.preferences
        = ((DFRobotESPpH.run bc s₀ events).preferences).putFloat "voltage7"
            (DFRobotESPpH.run bc s₀ events).neutralVoltage ∨
      ((DFRobotESPpH.run bc s₀ events).phCalibration bc 3).1.preferences
        = ((DFRobotESPpH.run bc s₀ events).preferences).putFloat "voltage4"
            (DFRobotESPpH.run bc s₀ events).acidVoltage) ∧
    (((DFRobotESPpH.run bc s₀ events).phCalibration bc 3).2 = .calibrationFailed →
      ((DFRobotESPpH.run bc s₀ events).phCalibration bc 3).1.preferences
        = (DFRobotESPpH.run bc s₀ events).preferences) ∧
    ((∀ e ∈ events, e.isExit = false) →
      (DFRobotESPpH.run bc s₀ events).preferences = s₀.preferences) := by
  have hwf : (DFRobotESPpH.run bc s₀ events).WellFormed :=
    run_wellFormed bc events s₀ h₀
  refine ⟨?_, ?_, ?_, ?_, fun h => run_preferences bc events s₀ h⟩ <;>
    · unfold phCalibration
      split_ifs <;> simp_all [WellFormed]

/-- Witness for **C8** at the concrete initial state `sEx` and the
concrete event sequence `quirkEvents`. -/
theorem session_exit_invariant_witness :
    ((DFRobotESPpH.run bcEx sEx quirkEvents).phCalibration bcEx 3).1.enterCalibrationFlag
      = false :=
  (session_exit_invariant bcEx sEx quirkEvents (fun _ => rfl)).1

/-- Counterexample to **C8** as stated: the session `quirkEvents` (enter;
accept 1300 mV as the neutral sample; voltage drifts to 500 mV) followed
by `ExitAndSave` reports success, yet the store still equals the
pre-session store `prefsEx` — the accepted in-band sample 1300 was *not*
substituted, contradicting the claimed dichotomy for sequences whose
exit reports success. -/
theorem session_exit_invariant_cex :
    ((DFRobotESPpH.run bcEx sEx quirkEvents).phCalibration bcEx 3).2
        = .calibrationSuccessful none ∧
    (DFRobotESPpH.run bcEx sEx quirkEvents).neutralVoltage = 1300 ∧
    sEx.neutralVoltage = 1340 ∧
    ((DFRobotESPpH.run bcEx sEx quirkEvents).phCalibration bcEx 3).1.preferences
        = prefsEx ∧
    ((DFRobotESPpH.run bcEx sEx quirkEvents).phCalibration bcEx 3).1.preferences.voltage7
        ≠ some 1300 := by decide

end DFRobotESPpH
